import Mathlib

/-!
Shallow embedding of the prothom-alo-scraper core (src/: config.py, models.py,
processor.py, requester.py, saver.py, scraper.py, utils.py).

Modelling conventions, used throughout:
* Calendar dates (Python datetime values handled by utils.string_to_date /
  utils.date_to_string) are modelled as day numbers (Nat); timedelta(days=t)
  is a Nat delta added to a day number.  date_to_string/string_to_date are a
  bijective pair of formatters, so the stored date string is modelled as the
  day number itself.
* Python exceptions are modelled with Except / an explicit error code
  (PyError).  A Python function body that can raise becomes a Lean function
  returning Except PyError A.
* The outside world (HTTP responses, the wall clock, whether a file write
  succeeds) is passed in as explicit oracle arguments: an api function for
  what requests deliver, a list of wall-clock readings consumed one per
  datetime.now() call, and a persist-success oracle indexed by the commit
  ordinal.
* CPython note: scraper.py line 73 tests int(total) is 0 and len(items) is 0;
  for the int 0 CPython interns the object, so both tests are equivalent to
  == 0 and are modelled as equality with 0.
-/

/-- Python exception kinds that the embedded code can raise. -/
inductive PyError where
  | keyError
  | nameError
  | typeError
deriving DecidableEq, Repr, Inhabited

deriving instance DecidableEq for Except

/-! ### models.py -/

/-- Cell of an output row: models.py stores both strings and ints (each
possibly None) in ItemModel.to_list. -/
inductive Cell where
  | str (s : Option String)
  | nat (n : Option Nat)
deriving DecidableEq, Repr, Inhabited

/-- models.py ItemModel: one parsed news article.  Every field defaults to
None in the source dataclass; fields Python fills with ints are Option Nat,
string fields are Option String. -/
structure ItemModel where
  headline : Option String := none
  subheadline : Option String := none
  content : Option String := none
  tags : Option String := none
  published_at : Option Nat := none
  created_at : Option Nat := none
  updated_at : Option Nat := none
  last_published_at : Option Nat := none
  first_published_at : Option Nat := none
  content_updated_at : Option Nat := none
  seo_description : Option String := none
  seo_tags : Option String := none
  main_author : Option String := none
  authors : Option String := none
  url : Option String := none
  read_time : Option Nat := none
  summary : Option String := none
  sections : Option String := none
  id : Option String := none
  word_count : Option Nat := none
deriving DecidableEq, Repr, Inhabited

/-- models.py ItemModel.to_list: the row handed to the sink, in source
order. -/
def ItemModel.to_list (it : ItemModel) : List Cell :=
  [Cell.str it.id, Cell.str it.headline, Cell.str it.subheadline,
   Cell.str it.summary, Cell.str it.content, Cell.str it.main_author,
   Cell.str it.authors, Cell.str it.url, Cell.nat it.read_time,
   Cell.str it.seo_description, Cell.str it.seo_tags, Cell.str it.tags,
   Cell.str it.sections, Cell.nat it.word_count, Cell.nat it.published_at,
   Cell.nat it.first_published_at, Cell.nat it.last_published_at,
   Cell.nat it.created_at, Cell.nat it.updated_at,
   Cell.nat it.content_updated_at]

/-- models.py ItemsModel.is_acceptable: an item passes iff headline and
content are both not None and the Python truthiness of
(len(headline) and len(content)) holds, i.e. both lengths are nonzero. -/
def ItemsModel.is_acceptable (item : ItemModel) : Bool :=
  match item.headline, item.content with
  | some h, some c => h.length != 0 && c.length != 0
  | _, _ => false

/-- models.py ItemsModel.add: append the item to the held list only when it
is acceptable.  The Python object holds self.items; we model it as the
list itself. -/
def ItemsModel.add (items : List ItemModel) (item : ItemModel) : List ItemModel :=
  if ItemsModel.is_acceptable item then items ++ [item] else items

/-- models.py ItemsModel.to_list: rows for all held items. -/
def ItemsModel.to_list (items : List ItemModel) : List (List Cell) :=
  items.map ItemModel.to_list

/-! ### processor.py raw record shape

The raw record is a loosely typed JSON mapping.  Each key the source reads is
a field here; Option tracks key presence (none = key absent).  Numeric
strings the source converts with int() are modelled as the numbers
themselves. -/

/-- One entry of card["story-elements"]; the source indexes element["type"]
and element["text"] directly (KeyError when absent). -/
structure StoryElement where
  etype : Option String := none
  etext : Option String := none
deriving DecidableEq, Repr, Inhabited

/-- One entry of item["cards"]; the source indexes card["story-elements"]
directly (KeyError when absent). -/
structure Card where
  story_elements : Option (List StoryElement) := none
deriving DecidableEq, Repr, Inhabited

/-- One entry of item["tags"]; name read with .get. -/
structure TagEntry where
  name : Option String := none
deriving DecidableEq, Repr, Inhabited

/-- One entry of item["sections"]; name read with .get. -/
structure SectionEntry where
  name : Option String := none
deriving DecidableEq, Repr, Inhabited

/-- One entry of item["authors"]; name read with .get (default ""). -/
structure AuthorEntry where
  name : Option String := none
deriving DecidableEq, Repr, Inhabited

/-- A raw article record as consumed by processor.py parse_data.  Keys read
with dict.get default to none when absent; item["cards"] is the only direct
(KeyError-raising) top-level access.  seo_present models the
"seo" in item.keys() test. -/
structure RawItem where
  headline : Option String := none
  author_name : Option String := none
  summary : Option String := none
  subheadline : Option String := none
  url : Option String := none
  read_time : Option Nat := none
  word_count : Option Nat := none
  id : Option String := none
  tags : Option (List TagEntry) := none
  cards : Option (List Card) := none
  created_at : Option Nat := none
  published_at : Option Nat := none
  updated_at : Option Nat := none
  last_published_at : Option Nat := none
  first_published_at : Option Nat := none
  content_updated_at : Option Nat := none
  seo_present : Bool := false
  meta_description : Option String := none
  meta_keywords : Option String := none
  authors : Option (List AuthorEntry) := none
  sections : Option (List SectionEntry) := none
deriving DecidableEq, Repr, Inhabited

/-! ### processor.py -/

/-- Index of the first occurrence of target before any newline (the regex
dot of processor.py clean_text does not cross newlines). -/
def findIdxBeforeNewline (target : Char) : List Char → Option Nat
  | [] => none
  | c :: rest =>
    if c = '\n' then none
    else if c = target then some 0
    else (findIdxBeforeNewline target rest).map (· + 1)

/-- Index of the last occurrence of target before the first newline. -/
def lastIdxBeforeNewline (target : Char) : List Char → Option Nat
  | [] => none
  | c :: rest =>
    if c = '\n' then none
    else
      match lastIdxBeforeNewline target rest with
      | some i => some (i + 1)
      | none => if c = target then some 0 else none

/-- Character-level re.sub scan for the pattern of processor.py clean_text:
alternation of a lazy tag match (opening angle bracket up to the first
closing one on the line) and a greedy entity match (ampersand up to the last
semicolon on the line); unmatched positions are copied through.  Every step
consumes at least one character, so fuel equal to the character count makes
the fuelled recursion total and exact. -/
def cleanCharsFuel : Nat → List Char → List Char
  | 0, _ => []
  | _ + 1, [] => []
  | fuel + 1, c :: rest =>
    if c = '<' then
      match findIdxBeforeNewline '>' rest with
      | some i => cleanCharsFuel fuel (rest.drop (i + 1))
      | none => c :: cleanCharsFuel fuel rest
    else if c = '&' then
      match lastIdxBeforeNewline ';' rest with
      | some i => cleanCharsFuel fuel (rest.drop (i + 1))
      | none => c :: cleanCharsFuel fuel rest
    else c :: cleanCharsFuel fuel rest

/-- The scan with sufficient fuel. -/
def cleanChars (l : List Char) : List Char :=
  cleanCharsFuel l.length l

/-- processor.py clean_text: strip HTML tags and entities via re.sub. -/
def Processor.clean_text (s : String) : String :=
  String.mk (cleanChars s.data)

/-- processor.py to_unix_timestamp: int(int(ts) / 1000); epoch millis are
nonnegative so Nat division models the Python truncation. -/
def Processor.to_unix_timestamp (timestamp : Nat) : Nat :=
  timestamp / 1000

/-- Inner loop of the construct_content_text comprehension over the
story elements of one card: element["type"] raises KeyError when absent;
for text elements, element["text"] raises KeyError when absent, otherwise
its cleaned text is collected. -/
def contentOfElements : List StoryElement → Except PyError (List String)
  | [] => Except.ok []
  | e :: rest =>
    match e.etype with
    | none => Except.error PyError.keyError
    | some t =>
      if t = "text" then
        match e.etext with
        | none => Except.error PyError.keyError
        | some s =>
          match contentOfElements rest with
          | Except.error err => Except.error err
          | Except.ok tail => Except.ok (Processor.clean_text s :: tail)
      else contentOfElements rest

/-- Outer loop of the construct_content_text comprehension over cards:
card["story-elements"] raises KeyError when absent. -/
def contentOfCards : List Card → Except PyError (List String)
  | [] => Except.ok []
  | c :: rest =>
    match c.story_elements with
    | none => Except.error PyError.keyError
    | some es =>
      match contentOfElements es with
      | Except.error err => Except.error err
      | Except.ok xs =>
        match contentOfCards rest with
        | Except.error err => Except.error err
        | Except.ok ys => Except.ok (xs ++ ys)

/-- processor.py construct_content_text: item["cards"] is a direct index, so
a record without the cards key raises KeyError; otherwise the cleaned text
pieces are joined with the empty separator. -/
def Processor.construct_content_text (item : RawItem) : Except PyError String :=
  match item.cards with
  | none => Except.error PyError.keyError
  | some cs =>
    match contentOfCards cs with
    | Except.error err => Except.error err
    | Except.ok parts => Except.ok (String.join parts)

/-- processor.py construct_tags_text: None when the tags key is absent,
otherwise the non-None tag names joined with commas. -/
def Processor.construct_tags_text (item : RawItem) : Option String :=
  match item.tags with
  | none => none
  | some tags =>
    some (String.intercalate "," ((tags.map (fun t => t.name)).filterMap (fun x => x)))

/-- processor.py construct_authors_text: None when the authors key is
absent, otherwise str(author.get("name", "")) joined with commas. -/
def Processor.construct_authors_text (item : RawItem) : Option String :=
  match item.authors with
  | none => none
  | some as_ => some (String.intercalate "," (as_.map (fun a => a.name.getD "")))

/-- processor.py parse_seo_data: only when the seo key is present are
meta-description and meta-keywords read (note the source reads them from the
item itself, which is mirrored here). -/
def Processor.parse_seo_data (item : RawItem) : Option String × Option String :=
  if item.seo_present then (item.meta_description, item.meta_keywords) else (none, none)

/-- processor.py construct_sections_text: when the sections key is present
the joined section names are returned (the source assigns them to a local
named tags and returns that local); when the key is absent the if-body never
runs, so the return statement reads an unassigned local and raises
NameError. -/
def Processor.construct_sections_text (item : RawItem) : Except PyError (Option String) :=
  match item.sections with
  | none => Except.error PyError.nameError
  | some secs =>
    Except.ok (some (String.intercalate ","
      ((secs.map (fun s => s.name)).filterMap (fun x => x))))

/-- processor.py parse_data, in source evaluation order: the scalar gets,
then construct_tags_text, construct_content_text (can raise KeyError), the
timestamp conversions, parse_seo_data, construct_authors_text and
construct_sections_text (can raise NameError). -/
def Processor.parse_data (item : RawItem) : Except PyError ItemModel := do
  let headline := item.headline
  let main_author := item.author_name
  let summary := item.summary
  let subheadline := item.subheadline
  let url := item.url
  let read_time := item.read_time.getD 0
  let word_count := item.word_count.getD 0
  let id := item.id
  let tags := Processor.construct_tags_text item
  let content ← Processor.construct_content_text item
  let created_at := Processor.to_unix_timestamp (item.created_at.getD 0)
  let published_at := Processor.to_unix_timestamp (item.published_at.getD 0)
  let updated_at := Processor.to_unix_timestamp (item.updated_at.getD 0)
  let last_published_at := Processor.to_unix_timestamp (item.last_published_at.getD 0)
  let first_published_at := Processor.to_unix_timestamp (item.first_published_at.getD 0)
  let content_updated_at := Processor.to_unix_timestamp (item.content_updated_at.getD 0)
  let seo := Processor.parse_seo_data item
  let authors := Processor.construct_authors_text item
  let sections ← Processor.construct_sections_text item
  Except.ok
    { headline := headline
      subheadline := subheadline
      content := some content
      tags := tags
      published_at := some published_at
      url := url
      seo_description := seo.1
      seo_tags := seo.2
      main_author := main_author
      authors := authors
      summary := summary
      read_time := some read_time
      id := id
      sections := sections
      word_count := some word_count
      created_at := some created_at
      updated_at := some updated_at
      first_published_at := some first_published_at
      last_published_at := some last_published_at
      content_updated_at := some content_updated_at }

/-- processor.py Processor.__call__ loop body: parse each raw item (any
raised exception aborts the whole page) and add it to the ItemsModel, which
keeps only acceptable items.  The accumulator is the ItemsModel contents. -/
def Processor.call : List RawItem → List ItemModel → Except PyError (List ItemModel)
  | [], acc => Except.ok acc
  | raw :: rest, acc =>
    match Processor.parse_data raw with
    | Except.error err => Except.error err
    | Except.ok it => Processor.call rest (ItemsModel.add acc it)

/-! ### saver.py -/

/-- saver.py Saver.__call__: the rows handed to the external sink are
exactly items_in.to_list() (the csv write itself is the external append
sink). -/
def Saver.call (items_in : List ItemModel) : List (List Cell) :=
  ItemsModel.to_list items_in

/-! ### config.py -/

/-- The tracked values of the persisted configuration/state blob that the
core reads and writes: total (articles scraped so far), last_scraped_date
(None until the first commit) and start_date.  Static entries (limit,
thresholds, paths) are passed as plain parameters where used. -/
structure ConfigBlob where
  total : Nat
  last_scraped_date : Option Nat
  start_date : Nat
deriving DecidableEq, Repr, Inhabited

/-- The Config object state: the in-memory self.configs dict and the
json file on disk it was loaded from. -/
structure ConfigState where
  mem : ConfigBlob
  disk : ConfigBlob
deriving DecidableEq, Repr, Inhabited

/-- config.py last_scraped_date property: the stored last_scraped_date when
it is not None, otherwise start_date.  Reads the in-memory dict. -/
def Config.last_scraped_date (c : ConfigState) : Nat :=
  match c.mem.last_scraped_date with
  | some d => d
  | none => c.mem.start_date

/-- config.py Config.update: first mutate the in-memory dict (total
incremented by newly_added, last_scraped_date overwritten with the absolute
date), then json.dump the whole dict to the file.  persist_ok is the oracle
for whether the file write succeeds; on failure the in-memory mutation has
already happened, the disk keeps its old contents, and the raised exception
is reported as the Bool false. -/
def Config.update (c : ConfigState) (newly_added : Nat) (last_scrapped_date : Nat)
    (persist_ok : Bool) : ConfigState × Bool :=
  let mem2 : ConfigBlob :=
    { c.mem with
        total := c.mem.total + newly_added
        last_scraped_date := some last_scrapped_date }
  if persist_ok then ({ mem := mem2, disk := mem2 }, true)
  else ({ mem := mem2, disk := c.disk }, false)

/-- A process restart: the Config is re-loaded from the persisted file, so
memory and disk both hold the disk blob. -/
def Config.restart (c : ConfigState) : ConfigState :=
  { mem := c.disk, disk := c.disk }

/-- Modelling helper: the sequence of successful Config.update commits for a
list of (newly_added, date) pairs. -/
def commit_seq (cfg : ConfigState) : List (Nat × Nat) → ConfigState
  | [] => cfg
  | (a, d) :: rest => commit_seq (Config.update cfg a d true).1 rest

/-! ### requester.py -/

/-- A decoded response body: the total field and the items list. -/
abbrev ApiResponse := Nat × List RawItem

/-- Outcome of one Requester.__call__ invocation. -/
inductive CallOutcome where
  | ok (response : ApiResponse)
  | typeError
  | exhausted
deriving DecidableEq, Repr, Inhabited

/-- Result of Requester.__call__: its outcome, how many HTTP attempts were
started, and the total seconds slept between attempts. -/
structure CallResult where
  outcome : CallOutcome
  attempts : Nat
  slept : Nat
deriving DecidableEq, Repr, Inhabited

/-- requester.py line 84: the backoff duration 30 * attempt the wait method
computes. -/
def Requester.wait_sleep_seconds (attempt : Nat) : Nat :=
  30 * attempt

/-- requester.py line 85: self.logger.log is invoked with only the message
string; logging.Logger.log requires the level as its first positional
argument and the message second, so this call raises TypeError before
time.sleep is ever reached. -/
def Requester.logger_log_single_argument : Except PyError Unit :=
  Except.error PyError.typeError

/-- requester.py Requester.wait: log the retry message, then sleep
30 * attempt seconds; returns the seconds slept when it completes. -/
def Requester.wait (attempt : Nat) : Except PyError Nat :=
  match Requester.logger_log_single_argument with
  | Except.error err => Except.error err
  | Except.ok _ => Except.ok (Requester.wait_sleep_seconds attempt)

/-- requester.py Requester.__call__ retry loop over attempts 1..max_attempts:
respond gives the decoded response of the HTTP attempt with that number, or
none when the attempt raises.  On a failed attempt the warning is logged and
wait is called inside the except block, so an exception from wait propagates
immediately; when the attempt list is exhausted the final
Exception("All request attempts failed.") is raised. -/
def Requester.call_loop (respond : Nat → Option ApiResponse) :
    List Nat → Nat → Nat → CallResult
  | [], attempts, slept => ⟨CallOutcome.exhausted, attempts, slept⟩
  | attempt :: rest, attempts, slept =>
    match respond attempt with
    | some r => ⟨CallOutcome.ok r, attempts + 1, slept⟩
    | none =>
      match Requester.wait attempt with
      | Except.error _ => ⟨CallOutcome.typeError, attempts + 1, slept⟩
      | Except.ok t => Requester.call_loop respond rest (attempts + 1) (slept + t)

/-- requester.py Requester.__call__: range(1, max_attempts + 1). -/
def Requester.call (max_attempts : Nat) (respond : Nat → Option ApiResponse) : CallResult :=
  Requester.call_loop respond (List.range' 1 max_attempts) 0 0

/-! ### scraper.py -/

/-- What one requester invocation delivers to the page loop: a decoded
response, or an exception (any failure escaping Requester.__call__). -/
inductive FetchOut where
  | ok (total : Nat) (items : List RawItem)
  | exn
deriving DecidableEq, Repr, Inhabited

/-- How one window (one fetch_articles_in_date_range call) ended. -/
inductive WindowExit where
  | exhausted
  | fetchExn
  | procExn (err : PyError)
  | persistExn
  | fuelOut
deriving DecidableEq, Repr, Inhabited

/-- Result of one window: the Config state after the window, the global
commit ordinal after it, how the window ended, the number of requester
calls made and the number of committed pages. -/
structure WindowOut where
  cfg : ConfigState
  commits : Nat
  exit : WindowExit
  fetches : Nat
  pages : Nat
deriving DecidableEq, Repr, Inhabited

/-- scraper.py fetch_articles_in_date_range loop body over
offset_iterable(): offset starts at 0 and grows by limit after each page.
After each fetch, break normally when int(total) is 0 or len(items) is 0
(left to right); otherwise process the page, append it via the saver and
commit via Config.update with the accepted count and the window end date.
Exceptions from the requester, the processor or the commit propagate out of
the window.  fuel bounds the unrolling; fuelOut marks fuel exhaustion (a
modelling artifact, never reached in the theorems below). -/
def Scraper.fetch_loop (api : Nat → FetchOut) (limit date_end : Nat)
    (persist_ok : Nat → Bool) :
    Nat → Nat → Nat → Nat → ConfigState → Nat → WindowOut
  | 0, _, fetches, pages, cfg, k => ⟨cfg, k, WindowExit.fuelOut, fetches, pages⟩
  | fuel + 1, offset, fetches, pages, cfg, k =>
    match api offset with
    | FetchOut.exn => ⟨cfg, k, WindowExit.fetchExn, fetches + 1, pages⟩
    | FetchOut.ok total items =>
      if total = 0 ∨ items.length = 0 then
        ⟨cfg, k, WindowExit.exhausted, fetches + 1, pages⟩
      else
        match Processor.call items [] with
        | Except.error err => ⟨cfg, k, WindowExit.procExn err, fetches + 1, pages⟩
        | Except.ok processed_items =>
          match Config.update cfg processed_items.length date_end (persist_ok k) with
          | (cfg2, true) =>
            Scraper.fetch_loop api limit date_end persist_ok fuel
              (offset + limit) (fetches + 1) (pages + 1) cfg2 (k + 1)
          | (cfg2, false) => ⟨cfg2, k + 1, WindowExit.persistExn, fetches + 1, pages⟩

/-- scraper.py Scraper.fetch_articles_in_date_range: the page loop started
at offset 0. -/
def Scraper.fetch_articles_in_date_range (api : Nat → FetchOut) (limit date_end : Nat)
    (persist_ok : Nat → Bool) (fuel : Nat) (cfg : ConfigState) (k : Nat) : WindowOut :=
  Scraper.fetch_loop api limit date_end persist_ok fuel 0 0 0 cfg k

/-- scraper.py date_iterable: starting from the date read from the Config,
each step compares the current date against a fresh datetime.now() reading
(nows supplies one reading per comparison, consumed lazily), yields it when
it is still strictly before now and advances it by the configured delta. -/
def Scraper.date_iterable (delta : Nat) : Nat → List Nat → List Nat
  | _, [] => []
  | current_date, now :: rest =>
    if current_date < now then
      current_date :: Scraper.date_iterable delta (current_date + delta) rest
    else []

/-- Result of Scraper.begin: final Config state, final commit ordinal, and
the per-window results in order. -/
structure BeginOut where
  cfg : ConfigState
  commits : Nat
  windows : List WindowOut
deriving DecidableEq, Repr, Inhabited

/-- scraper.py Scraper.begin loop: for each date yielded by date_iterable,
run fetch_articles_in_date_range for the window from that date to
date + delta inside a try/except that logs any exception and moves on to
the next window.  apiW gives the fetch behavior per window start and
offset. -/
def Scraper.begin_loop (apiW : Nat → Nat → FetchOut) (delta limit : Nat)
    (persist_ok : Nat → Bool) (fuel : Nat) :
    List Nat → Nat → ConfigState → Nat → BeginOut
  | [], _, cfg, k => ⟨cfg, k, []⟩
  | now :: rest, current_date, cfg, k =>
    if current_date < now then
      let w := Scraper.fetch_articles_in_date_range (apiW current_date) limit
        (current_date + delta) persist_ok fuel cfg k
      let b := Scraper.begin_loop apiW delta limit persist_ok fuel rest
        (current_date + delta) w.cfg w.commits
      ⟨b.cfg, b.commits, w :: b.windows⟩
    else ⟨cfg, k, []⟩

/-- scraper.py Scraper.begin: the window loop, started from the date the
Config reports. -/
def Scraper.begin (apiW : Nat → Nat → FetchOut) (delta limit : Nat)
    (persist_ok : Nat → Bool) (fuel : Nat) (nows : List Nat) (cfg : ConfigState) : BeginOut :=
  Scraper.begin_loop apiW delta limit persist_ok fuel nows (Config.last_scraped_date cfg) cfg 0

/-! ### Concrete fixtures shared by the theorems below -/

/-- A well-formed text story element. -/
def sampleElement : StoryElement := { etype := some "text", etext := some "body text" }

/-- A card holding one text element. -/
def sampleCard : Card := { story_elements := some [sampleElement] }

/-- A well-formed raw record: parses without an exception and is accepted. -/
def sampleRaw : RawItem :=
  { headline := some "Headline", cards := some [sampleCard],
    sections := some [{ name := some "news" }] }

/-- The ItemModel that Processor.parse_data produces for sampleRaw. -/
def sampleParsed : ItemModel :=
  { headline := some "Headline", content := some "body text",
    published_at := some 0, created_at := some 0, updated_at := some 0,
    last_published_at := some 0, first_published_at := some 0,
    content_updated_at := some 0, read_time := some 0, word_count := some 0,
    sections := some "news" }

/-- A raw record with an empty-string headline and a non-empty body. -/
def rawEmptyHeadline : RawItem :=
  { headline := some "", cards := some [sampleCard], sections := some [] }

/-- A raw record lacking the sections key (everything else well formed). -/
def rawNoSections : RawItem := { headline := some "h", cards := some [sampleCard] }

/-- A raw record lacking the cards key (everything else well formed). -/
def rawNoCards : RawItem := { headline := some "h", sections := some [] }

/-- A fresh Config state: no prior persisted cursor, start_date day 0,
zero total, disk and memory in agreement. -/
def cfg0 : ConfigState := ⟨⟨0, none, 0⟩, ⟨0, none, 0⟩⟩

/-- A mocked API serving, for each window start, a single page of records at
offset 0 (with total equal to the record count) and an empty page at every
later offset. -/
def apiOnePage (pages : Nat → List RawItem) : Nat → Nat → FetchOut :=
  fun cur o =>
    if o = 0 then FetchOut.ok (pages cur).length (pages cur) else FetchOut.ok 0 []

/-- A mocked API exhausted at offset bound: below it every fetch returns the
given page with the given total, at or beyond it the items list is empty. -/
def apiUniform (total : Nat) (page : List RawItem) (bound : Nat) : Nat → FetchOut :=
  fun o => if o < bound then FetchOut.ok total page else FetchOut.ok 0 []

/-! ### C1 -/

/-- C1 counterexample: a window whose fetcher fails (exhausts its retries)
at offset 5, after one page was already fetched and committed at offset 0,
does alter Cursor.last_scraped_date: the commit of page 0 already set it to
the window end date 1, so after the window fails the persisted value is
some 1, not the value none it held when the window started, and a restarted
process offers day 1, not the failed window start day 0. -/
theorem C1_counterexample :
    (Scraper.fetch_articles_in_date_range
        (fun o => if o = 0 then FetchOut.ok 10 [sampleRaw] else FetchOut.exn)
        5 1 (fun _ => true) 3 cfg0 0).exit = WindowExit.fetchExn ∧
    (Scraper.fetch_articles_in_date_range
        (fun o => if o = 0 then FetchOut.ok 10 [sampleRaw] else FetchOut.exn)
        5 1 (fun _ => true) 3 cfg0 0).cfg.disk.last_scraped_date = some 1 ∧
    cfg0.disk.last_scraped_date = none ∧
    Config.last_scraped_date
      (Config.restart (Scraper.fetch_articles_in_date_range
        (fun o => if o = 0 then FetchOut.ok 10 [sampleRaw] else FetchOut.exn)
        5 1 (fun _ => true) 3 cfg0 0).cfg) = 1 ∧
    Config.last_scraped_date cfg0 = 0 := by
  decide

/-- C1 amended: a window whose very first fetch (offset 0) exhausts retries
leaves the whole Config state (memory and disk, hence last_scraped_date)
untouched; the exception propagates before any commit. -/
theorem C1_fetch_failure_isolated
    (api : Nat → FetchOut) (limit date_end : Nat) (persist_ok : Nat → Bool)
    (fuel k : Nat) (cfg : ConfigState)
    (hapi : api 0 = FetchOut.exn) (hfuel : 0 < fuel) :
    Scraper.fetch_articles_in_date_range api limit date_end persist_ok fuel cfg k
      = ⟨cfg, k, WindowExit.fetchExn, 1, 0⟩ := by
  obtain ⟨m, rfl⟩ : ∃ m, fuel = m + 1 := ⟨fuel - 1, by omega⟩
  simp [Scraper.fetch_articles_in_date_range, Scraper.fetch_loop, hapi]

/-- C1 amended, witnessed at a concrete failing fetch. -/
theorem C1_fetch_failure_isolated_witness :
    Scraper.fetch_articles_in_date_range (fun _ => FetchOut.exn) 5 1 (fun _ => true) 3 cfg0 0
      = ⟨cfg0, 0, WindowExit.fetchExn, 1, 0⟩ :=
  C1_fetch_failure_isolated (fun _ => FetchOut.exn) 5 1 (fun _ => true) 3 0 cfg0
    rfl (by decide)

/-! ### C2 -/

/-- C2 counterexample: when the first commit fails to persist, the run does
not halt.  With a mocked API serving one committable page per window and a
persist oracle failing only the first commit, window 0 ends with the
persistence exception, yet the run proceeds: window 1 performs two fetches,
commits its page, and the final persisted cursor reflects it. -/
theorem C2_counterexample :
    (Scraper.begin (apiOnePage (fun _ => [sampleRaw])) 1 5 (fun k => k != 0) 2
        [2, 2, 2] cfg0).windows.length = 2 ∧
    ((Scraper.begin (apiOnePage (fun _ => [sampleRaw])) 1 5 (fun k => k != 0) 2
        [2, 2, 2] cfg0).windows.getD 0 default).exit = WindowExit.persistExn ∧
    ((Scraper.begin (apiOnePage (fun _ => [sampleRaw])) 1 5 (fun k => k != 0) 2
        [2, 2, 2] cfg0).windows.getD 1 default).exit = WindowExit.exhausted ∧
    ((Scraper.begin (apiOnePage (fun _ => [sampleRaw])) 1 5 (fun k => k != 0) 2
        [2, 2, 2] cfg0).windows.getD 1 default).fetches = 2 ∧
    ((Scraper.begin (apiOnePage (fun _ => [sampleRaw])) 1 5 (fun k => k != 0) 2
        [2, 2, 2] cfg0).windows.getD 1 default).pages = 1 ∧
    (Scraper.begin (apiOnePage (fun _ => [sampleRaw])) 1 5 (fun k => k != 0) 2
        [2, 2, 2] cfg0).cfg.disk.last_scraped_date = some 2 := by
  decide

/-- C2 amended: a persistence failure is never silent and aborts the current
window, but not the run.  First conjunct (all states and arguments): a
failing Config.update still performs the in-memory mutation, leaves the disk
untouched, and raises (reported as false) — so the caller observes the
error.  Remaining conjuncts (concrete window): a window whose first commit
cannot persist stops paginating at once (one fetch, no committed page) with
the persistence exception, memory mutated, disk unchanged. -/
theorem C2_persist_failure_propagates :
    (∀ (cfg : ConfigState) (a d : Nat),
      Config.update cfg a d false
        = ({ mem := ⟨cfg.mem.total + a, some d, cfg.mem.start_date⟩,
             disk := cfg.disk }, false)) ∧
    (Scraper.fetch_articles_in_date_range
        (fun o => if o = 0 then FetchOut.ok 10 [sampleRaw] else FetchOut.exn)
        5 1 (fun _ => false) 3 cfg0 0).exit = WindowExit.persistExn ∧
    (Scraper.fetch_articles_in_date_range
        (fun o => if o = 0 then FetchOut.ok 10 [sampleRaw] else FetchOut.exn)
        5 1 (fun _ => false) 3 cfg0 0).fetches = 1 ∧
    (Scraper.fetch_articles_in_date_range
        (fun o => if o = 0 then FetchOut.ok 10 [sampleRaw] else FetchOut.exn)
        5 1 (fun _ => false) 3 cfg0 0).pages = 0 ∧
    (Scraper.fetch_articles_in_date_range
        (fun o => if o = 0 then FetchOut.ok 10 [sampleRaw] else FetchOut.exn)
        5 1 (fun _ => false) 3 cfg0 0).cfg.mem.last_scraped_date = some 1 ∧
    (Scraper.fetch_articles_in_date_range
        (fun o => if o = 0 then FetchOut.ok 10 [sampleRaw] else FetchOut.exn)
        5 1 (fun _ => false) 3 cfg0 0).cfg.disk = cfg0.disk := by
  refine ⟨fun cfg a d => rfl, ?_⟩
  decide

/-! ### C3 -/

/-- C3: with max_attempts = 3 and every HTTP attempt failing, the Requester
performs exactly one attempt, sleeps zero seconds, and raises TypeError (the
single-argument logger.log call inside wait), not the documented exhaustion
exception after three attempts and 30 + 60 seconds of sleep. -/
theorem C3_retry_wait_type_error :
    Requester.call 3 (fun _ => none) = ⟨CallOutcome.typeError, 1, 0⟩ ∧
    Requester.wait 1 = Except.error PyError.typeError ∧
    Requester.wait_sleep_seconds 1 + Requester.wait_sleep_seconds 2 = 90 := by
  decide

/-! ### C7 -/

/-- C7: transformation of a malformed individual record is fatal to its
page, not silently dropped.  A record lacking the sections key makes
parse_data raise (construct_sections_text returns an unassigned local:
NameError); one lacking the cards key raises KeyError; and a page holding a
well-formed record followed by such a malformed one makes the whole
Processor call raise, aborting the page (the well-formed record is lost
too). -/
theorem C7_malformed_record_raises :
    Processor.parse_data rawNoSections = Except.error PyError.nameError ∧
    Processor.parse_data rawNoCards = Except.error PyError.keyError ∧
    Processor.call [sampleRaw, rawNoSections] [] = Except.error PyError.nameError ∧
    (Scraper.fetch_articles_in_date_range
        (fun o => if o = 0 then FetchOut.ok 2 [sampleRaw, rawNoSections] else FetchOut.ok 0 [])
        5 1 (fun _ => true) 2 cfg0 0).exit = WindowExit.procExn PyError.nameError ∧
    (Scraper.fetch_articles_in_date_range
        (fun o => if o = 0 then FetchOut.ok 2 [sampleRaw, rawNoSections] else FetchOut.ok 0 [])
        5 1 (fun _ => true) 2 cfg0 0).pages = 0 := by
  decide

/-! ### C9 -/

/-- C9: committing twice with identical arguments is idempotent for the date
field: after the replay, last_scraped_date (in memory and on disk) is the
absolute value d, exactly as after the first commit. -/
theorem C9_commit_idempotent (cfg : ConfigState) (a d : Nat) :
    ((Config.update (Config.update cfg a d true).1 a d true).1).mem.last_scraped_date
        = some d ∧
    ((Config.update (Config.update cfg a d true).1 a d true).1).disk.last_scraped_date
        = some d ∧
    ((Config.update cfg a d true).1).mem.last_scraped_date = some d ∧
    ((Config.update cfg a d true).1).disk.last_scraped_date = some d := by
  simp [Config.update]

/-- C9 witnessed at a concrete state and arguments. -/
theorem C9_commit_idempotent_witness :
    ((Config.update (Config.update cfg0 3 7 true).1 3 7 true).1).mem.last_scraped_date
      = some 7 :=
  (C9_commit_idempotent cfg0 3 7).1

/-! ### C6 and C10 -/

/-- Helper: a String has nonzero length iff it is not the empty string. -/
theorem string_length_ne_zero_iff (s : String) : s.length ≠ 0 ↔ s ≠ "" := by
  cases s with
  | mk data => cases data <;> simp [String.length, String.ext_iff]

/-- Helper: the acceptance test of models.py holds exactly when headline and
content are both present (not None) and non-empty. -/
theorem acceptable_means_nonempty (it : ItemModel) :
    ItemsModel.is_acceptable it = true ↔
      (it.headline ≠ none ∧ it.headline ≠ some "" ∧
       it.content ≠ none ∧ it.content ≠ some "") := by
  cases hh : it.headline <;> cases hc : it.content <;>
    simp [ItemsModel.is_acceptable, hh, hc, string_length_ne_zero_iff]

/-- Helper: every item in the output of a successful Processor call was
either already in the accumulator or passed the acceptance test. -/
theorem processor_call_mem (raws : List RawItem) :
    ∀ (acc out : List ItemModel), Processor.call raws acc = Except.ok out →
      ∀ it, it ∈ out → it ∈ acc ∨ ItemsModel.is_acceptable it = true := by
  induction raws with
  | nil =>
    intro acc out h it hm
    dsimp [Processor.call] at h
    cases h
    exact Or.inl hm
  | cons raw rest ih =>
    intro acc out h it hm
    dsimp [Processor.call] at h
    cases hp : Processor.parse_data raw with
    | error e => rw [hp] at h; cases h
    | ok itm =>
      rw [hp] at h
      rcases ih _ _ h it hm with hin | hacc
      · by_cases hA : ItemsModel.is_acceptable itm = true
        · simp only [ItemsModel.add, hA, if_true] at hin
          rcases List.mem_append.mp hin with h1 | h2
          · exact Or.inl h1
          · simp only [List.mem_singleton] at h2
            subst h2
            exact Or.inr hA
        · simp only [ItemsModel.add, hA, if_false] at hin
          exact Or.inl hin
      · exact Or.inr hacc

/-- C6: the acceptance filter.  First conjunct: for every transformed
record, acceptance holds iff headline and content are both present and
non-empty.  Remaining conjuncts: the page [rawEmptyHeadline] (empty-string
headline, non-empty body) produces no output rows, and in a window run that
page neither increments total_scraped nor ends the pagination: the walker
still advances to the next offset (two fetches, the committed page counted,
termination only by the next, raw-empty page). -/
theorem C6_acceptance_filter :
    (∀ it : ItemModel, ItemsModel.is_acceptable it = true ↔
      (it.headline ≠ none ∧ it.headline ≠ some "" ∧
       it.content ≠ none ∧ it.content ≠ some "")) ∧
    Processor.call [rawEmptyHeadline] [] = Except.ok [] ∧
    (Scraper.fetch_articles_in_date_range
        (fun o => if o = 0 then FetchOut.ok 1 [rawEmptyHeadline] else FetchOut.ok 0 [])
        5 1 (fun _ => true) 2 cfg0 0).exit = WindowExit.exhausted ∧
    (Scraper.fetch_articles_in_date_range
        (fun o => if o = 0 then FetchOut.ok 1 [rawEmptyHeadline] else FetchOut.ok 0 [])
        5 1 (fun _ => true) 2 cfg0 0).fetches = 2 ∧
    (Scraper.fetch_articles_in_date_range
        (fun o => if o = 0 then FetchOut.ok 1 [rawEmptyHeadline] else FetchOut.ok 0 [])
        5 1 (fun _ => true) 2 cfg0 0).cfg.mem.total = cfg0.mem.total := by
  refine ⟨acceptable_means_nonempty, ?_⟩
  decide

/-- C6 witnessed: the iff applied to a concrete accepted item. -/
theorem C6_acceptance_filter_witness :
    ItemsModel.is_acceptable sampleParsed = true :=
  (C6_acceptance_filter.1 sampleParsed).mpr (by decide)

/-- C10: every item a successful Processor call hands on — and hence every
row the Saver passes to the sink — has a present, non-empty headline and a
present, non-empty content; each sink row is the row of such an item. -/
theorem C10_sink_rows_invariant (raws : List RawItem) (out : List ItemModel)
    (h : Processor.call raws [] = Except.ok out) :
    (∀ it, it ∈ out →
      it.headline ≠ none ∧ it.headline ≠ some "" ∧
      it.content ≠ none ∧ it.content ≠ some "") ∧
    (∀ row, row ∈ Saver.call out → ∃ it, it ∈ out ∧ row = ItemModel.to_list it ∧
      ItemsModel.is_acceptable it = true) := by
  constructor
  · intro it hm
    rcases processor_call_mem raws [] out h it hm with hin | hacc
    · cases hin
    · exact (acceptable_means_nonempty it).mp hacc
  · intro row hr
    dsimp [Saver.call, ItemsModel.to_list] at hr
    rcases List.mem_map.mp hr with ⟨it, hin, heq⟩
    refine ⟨it, hin, heq.symm, ?_⟩
    rcases processor_call_mem raws [] out h it hin with h0 | hacc
    · cases h0
    · exact hacc

/-- C10 witnessed on a concrete page. -/
theorem C10_sink_rows_invariant_witness :
    sampleParsed.headline ≠ none ∧ sampleParsed.headline ≠ some "" ∧
    sampleParsed.content ≠ none ∧ sampleParsed.content ≠ some "" :=
  (C10_sink_rows_invariant [sampleRaw] [sampleParsed] (by decide)).1
    sampleParsed (by decide)

/-! ### C8 -/

/-- Helper: the walker yields at most one date per wall-clock reading. -/
theorem date_iterable_length_le (delta : Nat) :
    ∀ (nows : List Nat) (cur : Nat),
      (Scraper.date_iterable delta cur nows).length ≤ nows.length := by
  intro nows
  induction nows with
  | nil => intro cur; simp [Scraper.date_iterable]
  | cons now rest ih =>
    intro cur
    by_cases h : cur < now
    · simpa [Scraper.date_iterable, h] using Nat.succ_le_succ (ih (cur + delta))
    · simp [Scraper.date_iterable, h]

/-- Helper: the i-th yielded date is the start advanced i window widths, and
it was strictly below the i-th wall-clock reading. -/
theorem date_iterable_getD (delta : Nat) :
    ∀ (nows : List Nat) (cur i : Nat),
      i < (Scraper.date_iterable delta cur nows).length →
      (Scraper.date_iterable delta cur nows).getD i 0 = cur + i * delta ∧
      cur + i * delta < nows.getD i 0 := by
  intro nows
  induction nows with
  | nil => intro cur i h; simp [Scraper.date_iterable] at h
  | cons now rest ih =>
    intro cur i h
    by_cases hlt : cur < now
    · simp only [Scraper.date_iterable, hlt, if_true] at h ⊢
      cases i with
      | zero => simpa using hlt
      | succ j =>
        simp only [List.length_cons, Nat.succ_lt_succ_iff] at h
        have := ih (cur + delta) j h
        simp only [List.getD_cons_succ]
        constructor
        · rw [this.1]; ring
        · have h2 := this.2
          calc cur + (j + 1) * delta = cur + delta + j * delta := by ring
            _ < rest.getD j 0 := h2
    · simp [Scraper.date_iterable, hlt] at h

/-- Helper: when the walker stops before exhausting the wall-clock readings,
the next window start had reached or passed the reading taken at that
step. -/
theorem date_iterable_stop (delta : Nat) :
    ∀ (nows : List Nat) (cur : Nat),
      (Scraper.date_iterable delta cur nows).length < nows.length →
      nows.getD (Scraper.date_iterable delta cur nows).length 0
        ≤ cur + (Scraper.date_iterable delta cur nows).length * delta := by
  intro nows
  induction nows with
  | nil => intro cur h; simp at h
  | cons now rest ih =>
    intro cur h
    by_cases hlt : cur < now
    · simp only [Scraper.date_iterable, hlt, if_true, List.length_cons,
        Nat.succ_lt_succ_iff] at h ⊢
      have := ih (cur + delta) h
      simp only [List.getD_cons_succ]
      calc rest.getD (Scraper.date_iterable delta (cur + delta) rest).length 0
          ≤ cur + delta + (Scraper.date_iterable delta (cur + delta) rest).length * delta :=
            this
        _ = cur + ((Scraper.date_iterable delta (cur + delta) rest).length + 1) * delta := by
            ring
    · simp only [Scraper.date_iterable, hlt, if_false, List.length_nil,
        List.getD_cons_zero, Nat.zero_mul, Nat.add_zero]
      omega

/-- C8: the Window Walker, started from the date the Config reports, yields
a finite list of window starts: the first (when any) is the cursor date,
the i-th is cursor + i widths (so each window starts where the previous
ended), every yielded start was strictly below the wall-clock reading taken
lazily at its own step, and the walker stops yielding exactly when a start
reaches or passes the reading of its step. -/
theorem C8_window_walker (cfg : ConfigState) (delta : Nat) (nows : List Nat) :
    (Scraper.date_iterable delta (Config.last_scraped_date cfg) nows).length
        ≤ nows.length ∧
    (∀ i, i < (Scraper.date_iterable delta (Config.last_scraped_date cfg) nows).length →
      (Scraper.date_iterable delta (Config.last_scraped_date cfg) nows).getD i 0
        = Config.last_scraped_date cfg + i * delta ∧
      Config.last_scraped_date cfg + i * delta < nows.getD i 0) ∧
    ((Scraper.date_iterable delta (Config.last_scraped_date cfg) nows).length
        < nows.length →
      nows.getD (Scraper.date_iterable delta (Config.last_scraped_date cfg) nows).length 0
        ≤ Config.last_scraped_date cfg
          + (Scraper.date_iterable delta (Config.last_scraped_date cfg) nows).length
            * delta) :=
  ⟨date_iterable_length_le delta nows (Config.last_scraped_date cfg),
   fun i => date_iterable_getD delta nows (Config.last_scraped_date cfg) i,
   date_iterable_stop delta nows (Config.last_scraped_date cfg)⟩

/-- C8 witnessed on a concrete run: from a fresh cursor at day 0 with width
1 and wall-clock readings 2, 2, 3, 3 the walker yields days 0, 1, 2 and the
stop condition fires at the fourth reading. -/
theorem C8_window_walker_witness :
    (Scraper.date_iterable 1 (Config.last_scraped_date cfg0) [2, 2, 3, 3]).getD 1 0
        = Config.last_scraped_date cfg0 + 1 * 1 ∧
    Config.last_scraped_date cfg0 + 1 * 1 < [2, 2, 3, 3].getD 1 0 ∧
    ((Scraper.date_iterable 1 (Config.last_scraped_date cfg0) [2, 2, 3, 3]).length
        < [2, 2, 3, 3].length →
      [2, 2, 3, 3].getD
          (Scraper.date_iterable 1 (Config.last_scraped_date cfg0) [2, 2, 3, 3]).length 0
        ≤ Config.last_scraped_date cfg0
          + (Scraper.date_iterable 1 (Config.last_scraped_date cfg0) [2, 2, 3, 3]).length
            * 1) :=
  ⟨((C8_window_walker cfg0 1 [2, 2, 3, 3]).2.1 1 (by decide)).1,
   ((C8_window_walker cfg0 1 [2, 2, 3, 3]).2.1 1 (by decide)).2,
   (C8_window_walker cfg0 1 [2, 2, 3, 3]).2.2⟩

/-! ### C4 -/

/-- Helper: one committed page of the page loop.  When the fetch at offset
succeeds with a nonzero total and a non-empty items list, the page is
processed, committed (persist succeeding), and the loop continues at
offset + limit with one more fetch, one more page and the next commit
ordinal. -/
theorem fetch_loop_commit_step (api : Nat → FetchOut) (limit date_end : Nat)
    (pOk : Nat → Bool) (fuel offset f p k : Nat) (cfg : ConfigState)
    (total : Nat) (items : List RawItem) (procd : List ItemModel)
    (h1 : api offset = FetchOut.ok total items) (h2 : total ≠ 0)
    (h3 : items.length ≠ 0) (h4 : Processor.call items [] = Except.ok procd)
    (h5 : pOk k = true) :
    Scraper.fetch_loop api limit date_end pOk (fuel + 1) offset f p cfg k
      = Scraper.fetch_loop api limit date_end pOk fuel (offset + limit) (f + 1) (p + 1)
          (Config.update cfg procd.length date_end true).1 (k + 1) := by
  simp only [Scraper.fetch_loop, h1]
  rw [if_neg (by omega : ¬(total = 0 ∨ items.length = 0))]
  simp only [h4, h5, Config.update, if_true]

/-- Helper: the terminating fetch of the page loop.  When the fetch at
offset reports a zero total or an empty items list, the loop breaks
normally, counting the fetch but committing nothing. -/
theorem fetch_loop_exhaust_step (api : Nat → FetchOut) (limit date_end : Nat)
    (pOk : Nat → Bool) (fuel offset f p k : Nat) (cfg : ConfigState)
    (total : Nat) (items : List RawItem)
    (h1 : api offset = FetchOut.ok total items)
    (h2 : total = 0 ∨ items.length = 0) :
    Scraper.fetch_loop api limit date_end pOk (fuel + 1) offset f p cfg k
      = ⟨cfg, k, WindowExit.exhausted, f + 1, p⟩ := by
  simp only [Scraper.fetch_loop, h1]
  rw [if_pos h2]

/-- Helper: draining a uniformly mocked API.  Starting at any offset with n
full pages remaining before the exhaustion bound, the page loop fetches
those n pages, commits each, fetches once more, sees the empty page and
stops normally. -/
theorem fetch_loop_uniform (total : Nat) (page : List RawItem) (procd : List ItemModel)
    (limit date_end : Nat) (hT : total ≠ 0) (hpage : page ≠ [])
    (hproc : Processor.call page [] = Except.ok procd) (hlim : 0 < limit) :
    ∀ (n offset f p k : Nat) (cfg : ConfigState),
      Scraper.fetch_loop (apiUniform total page (offset + n * limit)) limit date_end
          (fun _ => true) (n + 1) offset f p cfg k
        = ⟨commit_seq cfg (List.replicate n (procd.length, date_end)), k + n,
           WindowExit.exhausted, f + n + 1, p + n⟩ := by
  have hlen : page.length ≠ 0 := by simpa [List.length_eq_zero] using hpage
  intro n
  induction n with
  | zero =>
    intro offset f p k cfg
    have hapi : apiUniform total page (offset + 0 * limit) offset = FetchOut.ok 0 [] := by
      simp [apiUniform]
    rw [fetch_loop_exhaust_step _ _ _ _ _ _ _ _ _ _ _ _ hapi (by simp)]
    simp [commit_seq]
  | succ m ih =>
    intro offset f p k cfg
    have harith : offset + (m + 1) * limit = offset + limit + m * limit := by ring
    have hapi : apiUniform total page (offset + (m + 1) * limit) offset
        = FetchOut.ok total page := by
      have hoff : offset < offset + (m + 1) * limit := by
        have : 0 < (m + 1) * limit := by positivity
        omega
      simp [apiUniform, hoff]
    rw [fetch_loop_commit_step _ _ _ _ _ _ _ _ _ _ _ _ procd hapi hT hlen hproc rfl]
    rw [harith]
    rw [ih (offset + limit) (f + 1) (p + 1) (k + 1)
      (Config.update cfg procd.length date_end true).1]
    simp only [List.replicate_succ, commit_seq, WindowOut.mk.injEq]
    refine ⟨trivial, by omega, trivial, by omega, by omega⟩

/-- C4: the Page Walker starts at offset 0 and advances by limit per
committed page.  First conjunct group: against a mocked API exhausted at
offset bound = n x limit (full non-empty pages below the bound, an empty
page at it), the window performs exactly bound / limit committed page
fetches plus the final empty fetch and ends normally (exhausted, no error).
Last conjunct group: a response whose reported total is zero ends the
window normally on the first fetch even though its items list is non-empty,
so the total test alone terminates (it is checked before the record-count
test). -/
theorem C4_pagination_termination (total : Nat) (page : List RawItem)
    (procd : List ItemModel) (limit bound n date_end k : Nat) (cfg : ConfigState)
    (hT : total ≠ 0) (hpage : page ≠ [])
    (hproc : Processor.call page [] = Except.ok procd)
    (hlim : 0 < limit) (hbound : bound = n * limit) :
    ((Scraper.fetch_articles_in_date_range (apiUniform total page bound) limit date_end
        (fun _ => true) (n + 1) cfg k).exit = WindowExit.exhausted ∧
     (Scraper.fetch_articles_in_date_range (apiUniform total page bound) limit date_end
        (fun _ => true) (n + 1) cfg k).pages = bound / limit ∧
     (Scraper.fetch_articles_in_date_range (apiUniform total page bound) limit date_end
        (fun _ => true) (n + 1) cfg k).fetches = bound / limit + 1) ∧
    ((Scraper.fetch_articles_in_date_range (fun _ => FetchOut.ok 0 [sampleRaw]) 5 1
        (fun _ => true) 2 cfg0 0).exit = WindowExit.exhausted ∧
     (Scraper.fetch_articles_in_date_range (fun _ => FetchOut.ok 0 [sampleRaw]) 5 1
        (fun _ => true) 2 cfg0 0).fetches = 1 ∧
     (Scraper.fetch_articles_in_date_range (fun _ => FetchOut.ok 0 [sampleRaw]) 5 1
        (fun _ => true) 2 cfg0 0).pages = 0) := by
  subst hbound
  have hdiv : n * limit / limit = n := Nat.mul_div_cancel n hlim
  have h := fetch_loop_uniform total page procd limit date_end hT hpage hproc hlim
    n 0 0 0 k cfg
  simp only [Nat.zero_add] at h
  constructor
  · simp only [Scraper.fetch_articles_in_date_range]
    rw [h, hdiv]
    exact ⟨rfl, rfl, rfl⟩
  · exact ⟨by decide, by decide, by decide⟩

/-- C4 witnessed at page size 1 and exhaustion offset 2: two committed
pages. -/
theorem C4_pagination_termination_witness :
    (Scraper.fetch_articles_in_date_range (apiUniform 7 [sampleRaw] 2) 1 1
        (fun _ => true) 3 cfg0 0).pages = 2 / 1 :=
  (C4_pagination_termination 7 [sampleRaw] [sampleParsed] 1 2 2 1 0 cfg0
    (by decide) (by decide) (by decide) (by decide) (by decide)).1.2.1


/-! ### C5 -/

/-- Helper: one step of the window loop of begin when the current date is
still before the wall-clock reading: run the window, then continue with the
remaining readings from the advanced date and the window's Config state. -/
theorem begin_loop_cfg_step (apiW : Nat → Nat → FetchOut) (delta limit : Nat)
    (pOk : Nat → Bool) (fuel now cur k : Nat) (rest : List Nat) (cfg : ConfigState)
    (h : cur < now) :
    (Scraper.begin_loop apiW delta limit pOk fuel (now :: rest) cur cfg k).cfg
      = (Scraper.begin_loop apiW delta limit pOk fuel rest (cur + delta)
          (Scraper.fetch_articles_in_date_range (apiW cur) limit (cur + delta)
            pOk fuel cfg k).cfg
          (Scraper.fetch_articles_in_date_range (apiW cur) limit (cur + delta)
            pOk fuel cfg k).commits).cfg := by
  simp only [Scraper.begin_loop]
  rw [if_pos h]

/-- A mocked API described by a per-window page table: for the window
starting at cur, the fetch at offset j x limit returns the j-th entry of
P cur (the raw page, paired with the rows its processing accepts) with
total equal to the raw record count, and the fetch one past the table
returns an empty page.  Any finite sequence of successful windows, with any
number of pages of any contents per window, is an instance. -/
def apiFromPages (limit : Nat) (P : Nat → List (List RawItem × List ItemModel)) :
    Nat → Nat → FetchOut :=
  fun cur o =>
    if o / limit < (P cur).length then
      FetchOut.ok (((P cur).getD (o / limit) ([], [])).1).length
        (((P cur).getD (o / limit) ([], [])).1)
    else FetchOut.ok 0 []

/-- Helper: draining an arbitrary list of pages.  When the fetches at
offset, offset + limit, ... serve the successive non-empty, cleanly parsing
pages of ps and the fetch one past them an empty page, the page loop (with
enough fuel) commits every page in order with the window end date and then
stops normally after one final fetch. -/
theorem fetch_loop_drain (api : Nat → FetchOut) (limit date_end : Nat) :
    ∀ (ps : List (List RawItem × List ItemModel)) (fuel offset f p k : Nat)
      (cfg : ConfigState),
      ps.length < fuel →
      (∀ i, i < ps.length → api (offset + i * limit)
          = FetchOut.ok (((ps.getD i ([], [])).1).length) ((ps.getD i ([], [])).1)) →
      (∀ i, i < ps.length → (ps.getD i ([], [])).1 ≠ []) →
      (∀ i, i < ps.length → Processor.call ((ps.getD i ([], [])).1) []
          = Except.ok (ps.getD i ([], [])).2) →
      api (offset + ps.length * limit) = FetchOut.ok 0 [] →
      Scraper.fetch_loop api limit date_end (fun _ => true) fuel offset f p cfg k
        = ⟨commit_seq cfg (ps.map (fun x => (x.2.length, date_end))), k + ps.length,
           WindowExit.exhausted, f + ps.length + 1, p + ps.length⟩ := by
  intro ps
  induction ps with
  | nil =>
    intro fuel offset f p k cfg hfuel hresp hne hproc hend
    obtain ⟨g, rfl⟩ : ∃ g, fuel = g + 1 := ⟨fuel - 1, by omega⟩
    have hend2 : api offset = FetchOut.ok 0 [] := by simpa using hend
    rw [fetch_loop_exhaust_step _ _ _ _ _ _ _ _ _ _ _ _ hend2 (Or.inl rfl)]
    simp [commit_seq]
  | cons hd tl ih =>
    intro fuel offset f p k cfg hfuel hresp hne hproc hend
    obtain ⟨g, rfl⟩ : ∃ g, fuel = g + 1 := ⟨fuel - 1, by omega⟩
    have h0 : api offset = FetchOut.ok hd.1.length hd.1 := by
      have h2 := hresp 0 (by simp)
      simpa using h2
    have hne0 : hd.1.length ≠ 0 := by
      have h2 := hne 0 (by simp)
      simp only [List.getD_cons_zero] at h2
      simpa [List.length_eq_zero] using h2
    have hp0 : Processor.call hd.1 [] = Except.ok hd.2 := by
      have h2 := hproc 0 (by simp)
      simpa using h2
    rw [fetch_loop_commit_step _ _ _ _ _ _ _ _ _ _ _ _ hd.2 h0 hne0 hne0 hp0 rfl]
    have hresp2 : ∀ i, i < tl.length → api (offset + limit + i * limit)
        = FetchOut.ok (((tl.getD i ([], [])).1).length) ((tl.getD i ([], [])).1) := by
      intro i hi
      have h2 := hresp (i + 1) (by simp only [List.length_cons]; omega)
      rw [show offset + (i + 1) * limit = offset + limit + i * limit from by ring] at h2
      simpa using h2
    have hne2 : ∀ i, i < tl.length → (tl.getD i ([], [])).1 ≠ [] := by
      intro i hi
      have h2 := hne (i + 1) (by simp only [List.length_cons]; omega)
      simpa using h2
    have hproc2 : ∀ i, i < tl.length → Processor.call ((tl.getD i ([], [])).1) []
        = Except.ok (tl.getD i ([], [])).2 := by
      intro i hi
      have h2 := hproc (i + 1) (by simp only [List.length_cons]; omega)
      simpa using h2
    have hend2 : api (offset + limit + tl.length * limit) = FetchOut.ok 0 [] := by
      have h2 := hend
      rw [show offset + (hd :: tl).length * limit = offset + limit + tl.length * limit from by
        simp only [List.length_cons]; ring] at h2
      exact h2
    rw [ih g (offset + limit) (f + 1) (p + 1) (k + 1)
      (Config.update cfg hd.2.length date_end true).1
      (by simp only [List.length_cons] at hfuel; omega) hresp2 hne2 hproc2 hend2]
    simp only [List.map_cons, commit_seq, List.length_cons, WindowOut.mk.injEq]
    refine ⟨trivial, by omega, trivial, by omega, by omega⟩

/-- Helper: one window against the page-table API: all pages of P cur are
committed in order with the window end date, the final fetch sees the empty
page, and the window ends normally. -/
theorem fetch_window_pages (limit : Nat) (P : Nat → List (List RawItem × List ItemModel))
    (cur date_end fuel : Nat) (hlim : 0 < limit)
    (hfuel : (P cur).length < fuel)
    (hne : ∀ j, j < (P cur).length → ((P cur).getD j ([], [])).1 ≠ [])
    (hproc : ∀ j, j < (P cur).length →
      Processor.call (((P cur).getD j ([], [])).1) []
        = Except.ok ((P cur).getD j ([], [])).2)
    (cfg : ConfigState) (k : Nat) :
    Scraper.fetch_articles_in_date_range (apiFromPages limit P cur) limit date_end
        (fun _ => true) fuel cfg k
      = ⟨commit_seq cfg ((P cur).map (fun x => (x.2.length, date_end))),
         k + (P cur).length, WindowExit.exhausted,
         (P cur).length + 1, (P cur).length⟩ := by
  have hdiv : ∀ i : Nat, (0 + i * limit) / limit = i := by
    intro i
    rw [Nat.zero_add, Nat.mul_div_cancel i hlim]
  have hresp : ∀ i, i < (P cur).length → apiFromPages limit P cur (0 + i * limit)
      = FetchOut.ok ((((P cur).getD i ([], [])).1).length) (((P cur).getD i ([], [])).1) := by
    intro i hi
    simp only [apiFromPages, hdiv i]
    rw [if_pos hi]
  have hend : apiFromPages limit P cur (0 + (P cur).length * limit) = FetchOut.ok 0 [] := by
    simp only [apiFromPages, hdiv (P cur).length]
    rw [if_neg (by omega)]
  rw [Scraper.fetch_articles_in_date_range]
  rw [fetch_loop_drain (apiFromPages limit P cur) limit date_end (P cur) fuel 0 0 0 k cfg
    hfuel hresp hne hproc hend]
  simp

/-- Modelling helper: the (newly_added, date) commit pairs a run of N
consecutive windows performs against the page-table API: window i commits
one pair per page of P (cur + i x delta), each carrying that page's
accepted-row count and the window end date. -/
def window_commits_P (P : Nat → List (List RawItem × List ItemModel)) (delta : Nat) :
    Nat → Nat → List (Nat × Nat)
  | _, 0 => []
  | cur, n + 1 =>
    (P cur).map (fun x => (x.2.length, cur + delta))
      ++ window_commits_P P delta (cur + delta) n

/-- Helper: committing a concatenation is committing the two parts in
order. -/
theorem commit_seq_append : ∀ (l1 l2 : List (Nat × Nat)) (cfg : ConfigState),
    commit_seq cfg (l1 ++ l2) = commit_seq (commit_seq cfg l1) l2 := by
  intro l1
  induction l1 with
  | nil => intro l2 cfg; simp [commit_seq]
  | cons x tl ih =>
    intro l2 cfg
    obtain ⟨a, d⟩ := x
    simp only [List.cons_append, commit_seq]
    exact ih l2 _

/-- Helper: a non-empty run of commits sharing one date adds the sum of the
counts to total, overwrites last_scraped_date with that date, keeps
start_date, and leaves disk equal to memory. -/
theorem commit_seq_const_date : ∀ (l : List Nat) (d : Nat) (cfg : ConfigState), l ≠ [] →
    commit_seq cfg (l.map (fun a => (a, d)))
      = ⟨⟨cfg.mem.total + l.sum, some d, cfg.mem.start_date⟩,
         ⟨cfg.mem.total + l.sum, some d, cfg.mem.start_date⟩⟩ := by
  intro l
  induction l with
  | nil => intro d cfg h; exact absurd rfl h
  | cons a tl ih =>
    intro d cfg _
    simp only [List.map_cons, commit_seq]
    have hupd : (Config.update cfg a d true).1
        = ⟨⟨cfg.mem.total + a, some d, cfg.mem.start_date⟩,
           ⟨cfg.mem.total + a, some d, cfg.mem.start_date⟩⟩ := by
      simp [Config.update]
    rw [hupd]
    cases tl with
    | nil => simp [commit_seq]
    | cons b tl2 =>
      rw [ih d _ (by simp)]
      simp only [ConfigState.mk.injEq, ConfigBlob.mk.injEq, Option.some.injEq,
        List.sum_cons]
      refine ⟨⟨by omega, trivial, trivial⟩, by omega, trivial, trivial⟩

/-- Helper: the commit sequence of N greater than zero page-table windows,
each with at least one page, yields total increased by the sum over windows
of the per-page accepted counts, last_scraped_date overwritten with the
final window end date, start_date untouched, and disk equal to memory. -/
theorem commit_seq_window_commits_P (P : Nat → List (List RawItem × List ItemModel))
    (delta : Nat) :
    ∀ (N cur : Nat) (cfg : ConfigState), 0 < N →
      (∀ i, i < N → P (cur + i * delta) ≠ []) →
      commit_seq cfg (window_commits_P P delta cur N)
        = ⟨⟨cfg.mem.total + ∑ i in Finset.range N,
              ((P (cur + i * delta)).map (fun x => x.2.length)).sum,
            some (cur + N * delta), cfg.mem.start_date⟩,
           ⟨cfg.mem.total + ∑ i in Finset.range N,
              ((P (cur + i * delta)).map (fun x => x.2.length)).sum,
            some (cur + N * delta), cfg.mem.start_date⟩⟩ := by
  intro N
  induction N with
  | zero => intro cur cfg h; omega
  | succ M ih =>
    intro cur cfg _ hne
    have hne0 : (P cur).map (fun x => x.2.length) ≠ [] := by
      have h2 := hne 0 (by omega)
      simp only [Nat.zero_mul, Nat.add_zero] at h2
      simpa using h2
    rw [window_commits_P]
    rw [commit_seq_append]
    rw [show (P cur).map (fun x => (x.2.length, cur + delta))
        = ((P cur).map (fun x => x.2.length)).map (fun a => (a, cur + delta)) from by
      rw [List.map_map]
      rfl]
    rw [commit_seq_const_date ((P cur).map (fun x => x.2.length)) (cur + delta) cfg hne0]
    cases M with
    | zero =>
      simp [window_commits_P, commit_seq, Finset.sum_range_one]
    | succ Q =>
      have hne2 : ∀ i, i < Q + 1 → P (cur + delta + i * delta) ≠ [] := by
        intro i hi
        have h2 := hne (i + 1) (by omega)
        rw [show cur + (i + 1) * delta = cur + delta + i * delta from by ring] at h2
        exact h2
      rw [ih (cur + delta) _ (by omega) hne2]
      have hshift : ∑ i in Finset.range (Q + 1),
            ((P (cur + delta + i * delta)).map (fun x => x.2.length)).sum
          = ∑ i in Finset.range (Q + 1),
            ((P (cur + (i + 1) * delta)).map (fun x => x.2.length)).sum := by
        apply Finset.sum_congr rfl
        intro i _
        rw [show cur + delta + i * delta = cur + (i + 1) * delta from by ring]
      have htotal : cfg.mem.total + ((P cur).map (fun x => x.2.length)).sum
            + ∑ i in Finset.range (Q + 1),
              ((P (cur + (i + 1) * delta)).map (fun x => x.2.length)).sum
          = cfg.mem.total + ∑ i in Finset.range (Q + 1 + 1),
              ((P (cur + i * delta)).map (fun x => x.2.length)).sum := by
        rw [Finset.sum_range_succ'
          (fun i => ((P (cur + i * delta)).map (fun x => x.2.length)).sum) (Q + 1)]
        simp only [Nat.zero_mul, Nat.add_zero]
        omega
      have hdate : cur + delta + (Q + 1) * delta = cur + (Q + 1 + 1) * delta := by ring
      simp only [ConfigState.mk.injEq, ConfigBlob.mk.injEq, Option.some.injEq, hshift]
      exact ⟨⟨htotal, hdate, trivial⟩, htotal, hdate, trivial⟩

/-- Helper: N consecutive windows of the page-table API, every page
non-empty and parsing cleanly and every window table shorter than the fuel,
leave the Config exactly at the commit sequence of all their pages; the
wall-clock readings let exactly N windows run and stop the N+1st. -/
theorem begin_loop_pages (P : Nat → List (List RawItem × List ItemModel))
    (delta limit fuel : Nat) (hd : 0 < delta) (hlim : 0 < limit) :
    ∀ (N cur k : Nat) (cfg : ConfigState),
      (∀ i, i < N → (P (cur + i * delta)).length < fuel) →
      (∀ i, i < N → ∀ j, j < (P (cur + i * delta)).length →
        ((P (cur + i * delta)).getD j ([], [])).1 ≠ []) →
      (∀ i, i < N → ∀ j, j < (P (cur + i * delta)).length →
        Processor.call (((P (cur + i * delta)).getD j ([], [])).1) []
          = Except.ok ((P (cur + i * delta)).getD j ([], [])).2) →
      (Scraper.begin_loop (apiFromPages limit P) delta limit (fun _ => true) fuel
          (List.replicate (N + 1) (cur + N * delta)) cur cfg k).cfg
        = commit_seq cfg (window_commits_P P delta cur N) := by
  intro N
  induction N with
  | zero =>
    intro cur k cfg hfuel hne hproc
    simp [Scraper.begin_loop, commit_seq, window_commits_P]
  | succ M ih =>
    intro cur k cfg hfuel hne hproc
    have hcur : cur < cur + (M + 1) * delta := by
      have hpos : 0 < (M + 1) * delta := by positivity
      omega
    have hfuel0 : (P cur).length < fuel := by
      have h2 := hfuel 0 (by omega)
      simpa using h2
    have hne0 : ∀ j, j < (P cur).length → ((P cur).getD j ([], [])).1 ≠ [] := by
      intro j hj
      have h2 := hne 0 (by omega) j (by simpa using hj)
      simpa using h2
    have hproc0 : ∀ j, j < (P cur).length →
        Processor.call (((P cur).getD j ([], [])).1) []
          = Except.ok ((P cur).getD j ([], [])).2 := by
      intro j hj
      have h2 := hproc 0 (by omega) j (by simpa using hj)
      simpa using h2
    have hfuel2 : ∀ i, i < M → (P (cur + delta + i * delta)).length < fuel := by
      intro i hi
      have h2 := hfuel (i + 1) (by omega)
      rw [show cur + (i + 1) * delta = cur + delta + i * delta from by ring] at h2
      exact h2
    have hne2 : ∀ i, i < M → ∀ j, j < (P (cur + delta + i * delta)).length →
        ((P (cur + delta + i * delta)).getD j ([], [])).1 ≠ [] := by
      intro i hi
      have h2 := hne (i + 1) (by omega)
      rw [show cur + (i + 1) * delta = cur + delta + i * delta from by ring] at h2
      exact h2
    have hproc2 : ∀ i, i < M → ∀ j, j < (P (cur + delta + i * delta)).length →
        Processor.call (((P (cur + delta + i * delta)).getD j ([], [])).1) []
          = Except.ok ((P (cur + delta + i * delta)).getD j ([], [])).2 := by
      intro i hi
      have h2 := hproc (i + 1) (by omega)
      rw [show cur + (i + 1) * delta = cur + delta + i * delta from by ring] at h2
      exact h2
    rw [List.replicate_succ]
    rw [begin_loop_cfg_step _ _ _ _ _ _ _ _ _ _ hcur]
    rw [fetch_window_pages limit P cur (cur + delta) fuel hlim hfuel0 hne0 hproc0 cfg k]
    dsimp only
    rw [show cur + (M + 1) * delta = cur + delta + M * delta from by ring]
    rw [ih (cur + delta) (k + (P cur).length)
      (commit_seq cfg ((P cur).map (fun x => (x.2.length, cur + delta))))
      hfuel2 hne2 hproc2]
    rw [window_commits_P]
    rw [commit_seq_append]

/-- C5: starting from a fresh cursor (no persisted date, start_date = start,
zero total), after any sequence of N successful committed windows — window i
serving the arbitrary page table P(start + i x width), with at least one
page, every raw page non-empty and parsing cleanly into its accepted rows —
the cursor date reads start + N x width, total_scraped is the sum over the
windows of their accepted-row counts, and the persisted blob agrees with
memory. -/
theorem C5_cursor_progress (N start delta limit fuel : Nat)
    (P : Nat → List (List RawItem × List ItemModel))
    (hd : 0 < delta) (hlim : 0 < limit)
    (hfuel : ∀ i, i < N → (P (start + i * delta)).length < fuel)
    (hwin : ∀ i, i < N → P (start + i * delta) ≠ [])
    (hne : ∀ i, i < N → ∀ j, j < (P (start + i * delta)).length →
      ((P (start + i * delta)).getD j ([], [])).1 ≠ [])
    (hproc : ∀ i, i < N → ∀ j, j < (P (start + i * delta)).length →
      Processor.call (((P (start + i * delta)).getD j ([], [])).1) []
        = Except.ok ((P (start + i * delta)).getD j ([], [])).2) :
    Config.last_scraped_date
        (Scraper.begin (apiFromPages limit P) delta limit (fun _ => true) fuel
          (List.replicate (N + 1) (start + N * delta))
          ⟨⟨0, none, start⟩, ⟨0, none, start⟩⟩).cfg = start + N * delta ∧
    (Scraper.begin (apiFromPages limit P) delta limit (fun _ => true) fuel
        (List.replicate (N + 1) (start + N * delta))
        ⟨⟨0, none, start⟩, ⟨0, none, start⟩⟩).cfg.mem.total
      = ∑ i in Finset.range N, ((P (start + i * delta)).map (fun x => x.2.length)).sum ∧
    (Scraper.begin (apiFromPages limit P) delta limit (fun _ => true) fuel
        (List.replicate (N + 1) (start + N * delta))
        ⟨⟨0, none, start⟩, ⟨0, none, start⟩⟩).cfg.disk
      = (Scraper.begin (apiFromPages limit P) delta limit (fun _ => true) fuel
          (List.replicate (N + 1) (start + N * delta))
          ⟨⟨0, none, start⟩, ⟨0, none, start⟩⟩).cfg.mem := by
  have hb : (Scraper.begin (apiFromPages limit P) delta limit (fun _ => true) fuel
        (List.replicate (N + 1) (start + N * delta))
        ⟨⟨0, none, start⟩, ⟨0, none, start⟩⟩).cfg
      = commit_seq ⟨⟨0, none, start⟩, ⟨0, none, start⟩⟩
          (window_commits_P P delta start N) :=
    begin_loop_pages P delta limit fuel hd hlim N start 0
      ⟨⟨0, none, start⟩, ⟨0, none, start⟩⟩ hfuel hne hproc
  rw [hb]
  cases N with
  | zero =>
    simp only [window_commits_P, commit_seq]
    refine ⟨?_, ?_, ?_⟩ <;> simp [Config.last_scraped_date]
  | succ M =>
    rw [commit_seq_window_commits_P P delta (M + 1) start _ (by omega) hwin]
    refine ⟨?_, ?_, ?_⟩ <;> simp [Config.last_scraped_date]

/-- A two-page window table: both pages hold one well-formed accepted
record. -/
def samplePages : List (List RawItem × List ItemModel) :=
  [([sampleRaw], [sampleParsed]), ([sampleRaw], [sampleParsed])]

/-- C5 witnessed on a multi-page window: one window of two committed pages
from a fresh cursor at day 0 with width 1. -/
theorem C5_cursor_progress_witness :
    Config.last_scraped_date
        (Scraper.begin (apiFromPages 5 (fun _ => samplePages)) 1 5 (fun _ => true) 3
          (List.replicate (1 + 1) (0 + 1 * 1))
          ⟨⟨0, none, 0⟩, ⟨0, none, 0⟩⟩).cfg = 0 + 1 * 1 :=
  (C5_cursor_progress 1 0 1 5 3 (fun _ => samplePages) (by decide) (by decide)
    (by intro i hi; show samplePages.length < 3; decide)
    (by intro i hi; show samplePages ≠ []; decide)
    (by
      intro i hi j hj
      have hj2 : j < 2 := hj
      rcases (by omega : j = 0 ∨ j = 1) with rfl | rfl
      · show (samplePages.getD 0 ([], [])).1 ≠ []
        decide
      · show (samplePages.getD 1 ([], [])).1 ≠ []
        decide)
    (by
      intro i hi j hj
      have hj2 : j < 2 := hj
      rcases (by omega : j = 0 ∨ j = 1) with rfl | rfl
      · show Processor.call ((samplePages.getD 0 ([], [])).1) []
            = Except.ok (samplePages.getD 0 ([], [])).2
        decide
      · show Processor.call ((samplePages.getD 1 ([], [])).1) []
            = Except.ok (samplePages.getD 1 ([], [])).2
        decide)).1
